import Mathlib

/-!
Verification of the shaketune resonance-analysis module
(`src/shaketune/resonances.py`) against its natural-language specification.

The numeric pipeline is embedded shallowly: Python floats become rationals
(`ℚ`), numpy vectors become `List ℚ`, and the fallible stages return
`Except String _` mirroring the `raise ValueError(...)` sites.  Rendering
calls (matplotlib) are pure presentation and carry no data decisions, so
only the computational content of each function is embedded.
-/

namespace Shaketune

/-- Module constant `PEAKS_DETECTION_THRESHOLD = 0.05` (resonances.py line 19). -/
def PEAKS_DETECTION_THRESHOLD : ℚ := 5 / 100

/-- Module constant `PEAKS_EFFECT_THRESHOLD = 0.12` (resonances.py line 20). -/
def PEAKS_EFFECT_THRESHOLD : ℚ := 12 / 100

/-- Module constant `MAX_SMOOTHING = 0.1` (resonances.py line 22). -/
def MAX_SMOOTHING : ℚ := 1 / 10

/-- A shaper candidate as produced by the external `ShaperCalibrate` helper
(class `CalibrationResult`): name, target frequency, residual vibration
fraction, smoothing, maximum acceleration and frequency-response vector. -/
structure CalibrationResult where
  name : String
  freq : ℚ
  vibrs : ℚ
  smoothing : ℚ
  max_accel : ℚ
  vals : List ℚ
deriving DecidableEq

/-- Python `round` (rounding half to even) on a rational. -/
def pyRound (q : ℚ) : ℤ :=
  let f := ⌊q⌋
  let r := q - f
  if r < 1 / 2 then f
  else if 1 / 2 < r then f + 1
  else if f % 2 = 0 then f else f + 1

/-- `shaper_max_accel = round(shaper.max_accel / 100.) * 100.`
(resonances.py line 120). -/
def shaperMaxAccel (s : CalibrationResult) : ℚ :=
  (pyRound (s.max_accel / 100) : ℚ) * 100

/-- The running low-vibration state of the loop at resonances.py lines
107-140: rounded acceleration, name, frequency, vibration percentage
(`vibrs * 100`) and response vector of the current best candidate. -/
structure LowvibInfo where
  accel : ℚ
  name : String
  freq : ℚ
  vibrs : ℚ
  vals : List ℚ
deriving DecidableEq

/-- The state update performed at resonances.py lines 136-140 when a
candidate passes the test at lines 133-135. -/
def mkLowvib (s : CalibrationResult) : LowvibInfo :=
  { accel := shaperMaxAccel s
  , name := s.name
  , freq := s.freq
  , vibrs := s.vibrs * 100
  , vals := s.vals }

/-- One iteration of the low-vibration selection loop (resonances.py lines
133-140).  The initial `lowvib_shaper_vibrs` is positive infinity, so while no
candidate has been kept (`none` state) the comparison
`shaper.vibrs * 100 < lowvib_shaper_vibrs` holds for every finite value and
only the `shaper.smoothing < MAX_SMOOTHING` test is decisive. -/
def lowvibStep (st : Option LowvibInfo) (s : CalibrationResult) : Option LowvibInfo :=
  match st with
  | none => if s.smoothing < MAX_SMOOTHING then some (mkLowvib s) else none
  | some l =>
      if (s.vibrs * 100 < l.vibrs ∨ (s.vibrs * 100 = l.vibrs ∧ shaperMaxAccel s > l.accel))
          ∧ s.smoothing < MAX_SMOOTHING
      then some (mkLowvib s) else some l

/-- The full low-vibration selection pass over the candidate list
(resonances.py lines 107-140). -/
def lowvibSelect (shapers : List CalibrationResult) : Option LowvibInfo :=
  shapers.foldl lowvibStep none

set_option linter.unusedVariables false in
/-- The low-vibration selection as performed by the pipeline
`graph_resonances_test_results`: the caller-supplied `max_smoothing` is
forwarded only to `calibrate_shaper` (resonances.py lines 289-290) and never
reaches `plot_freq_response`, whose filter uses the module constant
`MAX_SMOOTHING` (line 135); hence the selection is independent of the
`max_smoothing` argument. -/
def pipelineLowvibSelect (max_smoothing : Option ℚ)
    (shapers : List CalibrationResult) : Option LowvibInfo :=
  lowvibSelect shapers

/-- The performance-shaper tracking at resonances.py lines 126-130: the
(frequency, vibration percentage, response vector) of the last candidate
whose name equals `performance_shaper`. -/
def perfSelect (shapers : List CalibrationResult) (performance_shaper : String) :
    Option (ℚ × ℚ × List ℚ) :=
  shapers.foldl
    (fun st s =>
      if s.name = performance_shaper then some (s.freq, s.vibrs * 100, s.vals) else st)
    none

/-- What `plot_freq_response` adds to the legend: either a single best-shaper
recommendation or a performance plus low-vibration pair. -/
inductive Recommendation where
  | single (perfName : String) (perfFreq : ℚ) : Recommendation
  | both (perfName : String) (perfFreq : ℚ) (lowvibName : String) (lowvibFreq : ℚ) :
      Recommendation
deriving DecidableEq

/-- The recommendation logic of `plot_freq_response` (resonances.py lines
107-177): run the two selection passes, raise
`ValueError(Failed to find a performance shaper)` when no candidate matched
the performance name (lines 142-146), then emit the two-shaper
recommendation exactly when a low-vibration candidate exists, differs by
name from the performance shaper and its vibration percentage is at most the
performance one (line 152); otherwise emit the single recommendation. -/
def plot_freq_response (shapers : List CalibrationResult)
    (performance_shaper : String) : Except String Recommendation :=
  let low := lowvibSelect shapers
  match perfSelect shapers performance_shaper with
  | none => Except.error "Failed to find a performance shaper"
  | some pf =>
      match low with
      | some l =>
          if l.name ≠ performance_shaper ∧ l.vibrs ≤ pf.2.1 then
            Except.ok (Recommendation.both performance_shaper pf.1 l.name l.freq)
          else
            Except.ok (Recommendation.single performance_shaper pf.1)
      | none => Except.ok (Recommendation.single performance_shaper pf.1)

/-- `calibrate_shaper` (resonances.py lines 37-69), parameterised by the
outcome of the external `helper.find_best_shaper` call (the best shaper, if
any, and the list of all evaluated shapers) and by the mechanical parameters
`fr`, `zeta` computed by the external `compute_mechanical_parameters`.  When
the search yields no shaper the function raises
`ValueError(Failed to find a shaper)` (lines 59-61); otherwise it returns
the shaper name, all candidates and the mechanical parameters. -/
def calibrate_shaper
    (search : Option CalibrationResult × List CalibrationResult)
    (fr zeta : ℚ) : Except String (String × List CalibrationResult × ℚ × ℚ) :=
  match search.1 with
  | none => Except.error "Failed to find a shaper"
  | some shaper => Except.ok (shaper.name, search.2, fr, zeta)

/-- The PSD record produced by the external `ShaperCalibrate` helper: the
frequency grid `freq_bins` and the per-axis and combined PSD vectors. -/
structure CalibrationData where
  freq_bins : List ℚ
  psd_sum : List ℚ
  psd_x : List ℚ
  psd_y : List ℚ
  psd_z : List ℚ

/-- The trimmed record after resonances.py lines 294-300: every vector
restricted to the positions whose frequency is at most `max_freq`, and the
`freqs` attribute set to the trimmed grid. -/
structure TrimmedCalibrationData where
  freqs : List ℚ
  psd_sum : List ℚ
  psd_x : List ℚ
  psd_y : List ℚ
  psd_z : List ℚ

/-- numpy boolean-mask indexing `xs[freqs <= max_freq]`: keep the entries of
`xs` at the positions where the parallel `freqs` entry is at most
`max_freq`. -/
def maskLe (freqs xs : List ℚ) (max_freq : ℚ) : List ℚ :=
  ((freqs.zip xs).filter (fun p => p.1 ≤ max_freq)).map Prod.snd

/-- The PSD trimming performed by `graph_resonances_test_results`
(resonances.py lines 294-300). -/
def trimCalibrationData (cd : CalibrationData) (max_freq : ℚ) :
    TrimmedCalibrationData :=
  { freqs := cd.freq_bins.filter (fun f => f ≤ max_freq)
  , psd_sum := maskLe cd.freq_bins cd.psd_sum max_freq
  , psd_x := maskLe cd.freq_bins cd.psd_x max_freq
  , psd_y := maskLe cd.freq_bins cd.psd_y max_freq
  , psd_z := maskLe cd.freq_bins cd.psd_z max_freq }

/-- numpy `xs.max()` on a vector; numpy raises on an empty vector, which the
pipeline never produces, so the empty case defaults to `0`. -/
def listMax (xs : List ℚ) : ℚ :=
  match xs with
  | [] => 0
  | x :: rest => rest.foldl max x

/-- The two-element `peaks_threshold` list built at resonances.py lines
303-306: the detection threshold `0.05 * psd_sum.max()` and the effect
threshold `0.12 * psd_sum.max()` over the trimmed combined PSD. -/
def peaksThresholdOf (psd_sum : List ℚ) : ℚ × ℚ :=
  (PEAKS_DETECTION_THRESHOLD * listMax psd_sum,
   PEAKS_EFFECT_THRESHOLD * listMax psd_sum)

/-- Whether position `i` of `psd` is a local maximum (at least as large as
each existing neighbour). -/
def isLocalMax (psd : List ℚ) (i : ℕ) : Bool :=
  (decide (i = 0) || decide (psd.getD (i - 1) 0 ≤ psd.getD i 0)) &&
  (decide (i + 1 = psd.length) || decide (psd.getD (i + 1) 0 ≤ psd.getD i 0))

/-- Merge run helper: `cur` is the currently retained maximum; a following
index closer than `sep` bins replaces it only when its PSD value is
higher. -/
def mergeCloseAux (psd : List ℚ) (sep : ℕ) : ℕ → List ℕ → List ℕ
  | cur, [] => [cur]
  | cur, j :: rest =>
      if j - cur < sep then
        if psd.getD cur 0 < psd.getD j 0 then mergeCloseAux psd sep j rest
        else mergeCloseAux psd sep cur rest
      else cur :: mergeCloseAux psd sep j rest

/-- Merge adjacent maxima closer than `sep` bins, keeping the higher one. -/
def mergeClose (psd : List ℚ) (sep : ℕ) : List ℕ → List ℕ
  | [] => []
  | i :: rest => mergeCloseAux psd sep i rest

/-- Modelled from the spec: `detect_peaks` lives in `shaketune/common.py`,
which is not under `src/`.  Spec section 4.3: scan the PSD sequence for
local maxima whose value exceeds `threshold`; merge adjacent maxima closer
than a minimum bin separation, keeping the higher one; return the peaks in
ascending order with their indices, their count and their frequencies.  The
spec fixes no value for the minimum bin separation, so it is the parameter
`sep`. -/
def detect_peaks (psd freqs : List ℚ) (threshold : ℚ) (sep : ℕ) :
    ℕ × List ℕ × List ℚ :=
  let cands :=
    (List.range psd.length).filter
      (fun i => isLocalMax psd i && decide (threshold < psd.getD i 0))
  let peaks := mergeClose psd sep cands
  (peaks.length, peaks, peaks.map (fun i => freqs.getD i 0))

/-- `np.sum(calibration_data.psd_sum[peaks] > peaks_threshold[1])`
(resonances.py lines 313-314): the number of detected peaks whose PSD value
strictly exceeds the effect threshold. -/
def numPeaksAboveEffect (psd : List ℚ) (peaks : List ℕ) (effect : ℚ) : ℕ :=
  (peaks.filter (fun p => effect < psd.getD p 0)).length

/-- The font colour and weight chosen for a peak label in
`plot_freq_response` (resonances.py lines 185-191): red and bold exactly
when the PSD value at the peak strictly exceeds `peaks_threshold[1]`. -/
def peakLabelStyle (psd : List ℚ) (peak : ℕ) (effect : ℚ) : String × String :=
  if effect < psd.getD peak 0 then ("red", "bold") else ("black", "normal")

/-- The values computed by the peak-analysis part of
`graph_resonances_test_results` (resonances.py lines 294-318). -/
structure GraphComputation where
  trimmed : TrimmedCalibrationData
  peaks_threshold : ℚ × ℚ
  num_peaks : ℕ
  peaks : List ℕ
  peaks_freqs : List ℚ
  num_peaks_above_effect_threshold : ℕ

/-- The computation part of `graph_resonances_test_results` after the shaper
calibration (resonances.py lines 294-318): trim the PSD data to `max_freq`,
build the two-element threshold list from the trimmed combined PSD, run the
peak detector with the detection threshold only, and count the detected
peaks above the effect threshold. -/
def graph_resonances_test_results (cd : CalibrationData) (max_freq : ℚ)
    (sep : ℕ) : GraphComputation :=
  let t := trimCalibrationData cd max_freq
  let thr := peaksThresholdOf t.psd_sum
  let r := detect_peaks t.psd_sum t.freqs thr.1 sep
  { trimmed := t
  , peaks_threshold := thr
  , num_peaks := r.1
  , peaks := r.2.1
  , peaks_freqs := r.2.2
  , num_peaks_above_effect_threshold :=
      numPeaksAboveEffect t.psd_sum r.2.1 thr.2 }

/-! ### Helper lemmas -/

lemma lowvibStep_cases (st : Option LowvibInfo) (s : CalibrationResult) :
    lowvibStep st s = st ∨
      (lowvibStep st s = some (mkLowvib s) ∧ s.smoothing < MAX_SMOOTHING) := by
  cases st with
  | none =>
      by_cases h : s.smoothing < MAX_SMOOTHING
      · exact Or.inr ⟨by simp [lowvibStep, h], h⟩
      · exact Or.inl (by simp [lowvibStep, h])
  | some l =>
      by_cases h :
          (s.vibrs * 100 < l.vibrs ∨
            (s.vibrs * 100 = l.vibrs ∧ shaperMaxAccel s > l.accel))
          ∧ s.smoothing < MAX_SMOOTHING
      · exact Or.inr ⟨by simp [lowvibStep, h], h.2⟩
      · exact Or.inl (by simp [lowvibStep, h])

lemma lowvib_foldl_inv (rest : List CalibrationResult) :
    ∀ (st : Option LowvibInfo) (l : LowvibInfo),
      rest.foldl lowvibStep st = some l →
      st = some l ∨ ∃ s ∈ rest, l = mkLowvib s ∧ s.smoothing < MAX_SMOOTHING := by
  induction rest with
  | nil => intro st l h; exact Or.inl h
  | cons s rest ih =>
      intro st l h
      rcases ih (lowvibStep st s) l h with h1 | ⟨t, ht, hl⟩
      · rcases lowvibStep_cases st s with h2 | ⟨h2, hs⟩
        · exact Or.inl (h2 ▸ h1)
        · exact Or.inr ⟨s, List.mem_cons_self s rest, by rw [h2] at h1; exact
            ⟨(Option.some.injEq _ _ ▸ h1).symm, hs⟩⟩
      · exact Or.inr ⟨t, List.mem_cons_of_mem s ht, hl⟩

lemma lowvibSelect_mem (shapers : List CalibrationResult) (l : LowvibInfo)
    (h : lowvibSelect shapers = some l) :
    ∃ s ∈ shapers, l = mkLowvib s ∧ s.smoothing < MAX_SMOOTHING := by
  rcases lowvib_foldl_inv shapers none l h with h1 | h1
  · exact absurd h1 (by simp)
  · exact h1

lemma perfSelect_foldl_none (performance_shaper : String)
    (shapers : List CalibrationResult)
    (h : ∀ s ∈ shapers, s.name ≠ performance_shaper) :
    ∀ st, shapers.foldl
      (fun st s =>
        if s.name = performance_shaper then some (s.freq, s.vibrs * 100, s.vals)
        else st) st = st := by
  induction shapers with
  | nil => intro st; rfl
  | cons s rest ih =>
      intro st
      have hs : s.name ≠ performance_shaper := h s (List.mem_cons_self s rest)
      have hr : ∀ t ∈ rest, t.name ≠ performance_shaper :=
        fun t ht => h t (List.mem_cons_of_mem s ht)
      simp only [List.foldl_cons, if_neg hs]
      exact ih hr st

lemma perfSelect_eq_none (shapers : List CalibrationResult)
    (performance_shaper : String)
    (h : ∀ s ∈ shapers, s.name ≠ performance_shaper) :
    perfSelect shapers performance_shaper = none :=
  perfSelect_foldl_none performance_shaper shapers h none

lemma maskLe_length (max_freq : ℚ) :
    ∀ (freqs xs : List ℚ), freqs.length = xs.length →
      (maskLe freqs xs max_freq).length =
        (freqs.filter (fun f => f ≤ max_freq)).length := by
  intro freqs
  induction freqs with
  | nil => intro xs h; simp [maskLe]
  | cons f freqs ih =>
      intro xs h
      cases xs with
      | nil => simp at h
      | cons x xs =>
          have h2 : freqs.length = xs.length := by simpa using h
          have ih2 := ih xs h2
          simp only [maskLe] at ih2 ⊢
          by_cases hf : f ≤ max_freq <;>
            simp [List.filter_cons, hf, ih2]

lemma mem_filter_le (max_freq : ℚ) (freqs : List ℚ) :
    ∀ f ∈ freqs.filter (fun f => f ≤ max_freq), f ≤ max_freq := by
  intro f hf
  have := List.of_mem_filter hf
  simpa using this

lemma mergeCloseAux_subset (psd : List ℚ) (sep : ℕ) :
    ∀ (rest : List ℕ) (cur x : ℕ),
      x ∈ mergeCloseAux psd sep cur rest → x = cur ∨ x ∈ rest := by
  intro rest
  induction rest with
  | nil => intro cur x hx; simp [mergeCloseAux] at hx; exact Or.inl hx
  | cons j rest ih =>
      intro cur x hx
      by_cases h1 : j - cur < sep
      · by_cases h2 : psd.getD cur 0 < psd.getD j 0
        · simp only [mergeCloseAux, if_pos h1, if_pos h2] at hx
          rcases ih j x hx with h | h
          · exact Or.inr (h ▸ List.mem_cons_self j rest)
          · exact Or.inr (List.mem_cons_of_mem j h)
        · simp only [mergeCloseAux, if_pos h1, if_neg h2] at hx
          rcases ih cur x hx with h | h
          · exact Or.inl h
          · exact Or.inr (List.mem_cons_of_mem j h)
      · simp only [mergeCloseAux, if_neg h1, List.mem_cons] at hx
        rcases hx with h | h
        · exact Or.inl h
        · rcases ih j x h with h | h
          · exact Or.inr (h ▸ List.mem_cons_self j rest)
          · exact Or.inr (List.mem_cons_of_mem j h)

lemma mergeClose_subset (psd : List ℚ) (sep : ℕ) (l : List ℕ) (x : ℕ)
    (hx : x ∈ mergeClose psd sep l) : x ∈ l := by
  cases l with
  | nil => simp [mergeClose] at hx
  | cons i rest =>
      rcases mergeCloseAux_subset psd sep rest i x hx with h | h
      · exact h ▸ List.mem_cons_self i rest
      · exact List.mem_cons_of_mem i h

lemma detect_peaks_mem_gt (psd freqs : List ℚ) (threshold : ℚ) (sep : ℕ)
    (p : ℕ) (hp : p ∈ (detect_peaks psd freqs threshold sep).2.1) :
    threshold < psd.getD p 0 := by
  have h1 : p ∈ (List.range psd.length).filter
      (fun i => isLocalMax psd i && decide (threshold < psd.getD i 0)) :=
    mergeClose_subset psd sep _ p hp
  have h2 := List.of_mem_filter h1
  simp only [Bool.and_eq_true, decide_eq_true_eq] at h2
  exact h2.2

/-! ### Claim theorems -/

/-- C1, counterexample: with the caller-supplied `max_smoothing = 1/20`
(0.05), a candidate with smoothing `7/100` (0.07) — which is not strictly
below that bound — is nevertheless chosen as the low-vibration alternative,
because the filter uses the module constant `MAX_SMOOTHING = 0.1` instead
of the parameter. -/
theorem lowvib_ignores_caller_max_smoothing :
    pipelineLowvibSelect (some (1 / 20))
        [⟨"zv", 50, 1 / 100, 7 / 100, 5000, []⟩] =
      some ⟨5000, "zv", 50, 1, []⟩ ∧
    ¬ ((7 : ℚ) / 100 < 1 / 20) := by
  constructor
  · norm_num [pipelineLowvibSelect, lowvibSelect, lowvibStep, mkLowvib,
      shaperMaxAccel, pyRound, MAX_SMOOTHING]
  · norm_num

/-- C1, amended: for every caller-supplied `max_smoothing` and candidate
list, the low-vibration selection only ever chooses a candidate whose
smoothing is strictly below the module constant `MAX_SMOOTHING = 0.1`; the
caller-supplied parameter plays no role in this filter. -/
theorem lowvib_filter_uses_module_constant (max_smoothing : Option ℚ)
    (shapers : List CalibrationResult) (l : LowvibInfo)
    (h : pipelineLowvibSelect max_smoothing shapers = some l) :
    ∃ s ∈ shapers, l = mkLowvib s ∧ s.smoothing < MAX_SMOOTHING :=
  lowvibSelect_mem shapers l h

/-- Witness for the amended C1 theorem at a concrete input. -/
theorem lowvib_filter_uses_module_constant_witness :
    pipelineLowvibSelect (some (1 / 2)) [⟨"mzv", 40, 1 / 100, 5 / 100, 4000, []⟩] =
      some ⟨4000, "mzv", 40, 1, []⟩ ∧
    ∃ s ∈ [(⟨"mzv", 40, 1 / 100, 5 / 100, 4000, []⟩ : CalibrationResult)],
      (⟨4000, "mzv", 40, 1, []⟩ : LowvibInfo) = mkLowvib s ∧
        s.smoothing < MAX_SMOOTHING := by
  have h : pipelineLowvibSelect (some (1 / 2))
      [⟨"mzv", 40, 1 / 100, 5 / 100, 4000, []⟩] =
      some ⟨4000, "mzv", 40, 1, []⟩ := by
    norm_num [pipelineLowvibSelect, lowvibSelect, lowvibStep, mkLowvib,
      shaperMaxAccel, pyRound, MAX_SMOOTHING]
  exact ⟨h, lowvib_filter_uses_module_constant (some (1 / 2)) _ _ h⟩

/-- C2, counterexample: two smoothing-eligible candidates with identical
vibration fraction (`2/100`) and different maximum accelerations (5010 and
5040); both round to 5000, so the tie-break comparison
`shaper_max_accel > lowvib_shaper_accel` fails and the first candidate is
kept — the candidate with the higher maximum acceleration is not picked. -/
theorem lowvib_tiebreak_counterexample :
    (lowvibSelect [⟨"a", 50, 2 / 100, 5 / 100, 5010, []⟩,
                   ⟨"b", 52, 2 / 100, 5 / 100, 5040, []⟩]).map LowvibInfo.name =
      some "a" ∧
    ((5010 : ℚ) < 5040) := by
  constructor
  · norm_num [lowvibSelect, lowvibStep, mkLowvib, shaperMaxAccel, pyRound,
      MAX_SMOOTHING]
  · norm_num

/-- C2, amended: for two smoothing-eligible candidates with identical
vibration fraction, the selector picks the one whose maximum acceleration
rounded to the nearest multiple of 100 (`round(max_accel/100)*100`) is
strictly higher, in either presentation order; when the rounded values are
equal the earlier candidate is kept. -/
theorem lowvib_tiebreak_rounded_accel (A B : CalibrationResult)
    (hv : A.vibrs = B.vibrs)
    (hA : A.smoothing < MAX_SMOOTHING) (hB : B.smoothing < MAX_SMOOTHING)
    (hacc : shaperMaxAccel A < shaperMaxAccel B) :
    (lowvibSelect [A, B]).map LowvibInfo.name = some B.name ∧
    (lowvibSelect [B, A]).map LowvibInfo.name = some B.name := by
  have hstepA : lowvibStep none A = some (mkLowvib A) := by
    simp [lowvibStep, hA]
  have hstepB : lowvibStep none B = some (mkLowvib B) := by
    simp [lowvibStep, hB]
  have hcond :
      (B.vibrs * 100 < (mkLowvib A).vibrs ∨
        (B.vibrs * 100 = (mkLowvib A).vibrs ∧
          shaperMaxAccel B > (mkLowvib A).accel)) ∧
      B.smoothing < MAX_SMOOTHING := by
    refine ⟨Or.inr ⟨?_, ?_⟩, hB⟩
    · simp [mkLowvib, hv]
    · simpa [mkLowvib] using hacc
  have hAB : lowvibStep (some (mkLowvib A)) B = some (mkLowvib B) := by
    simp only [lowvibStep]
    rw [if_pos hcond]
  have hncond :
      ¬ ((A.vibrs * 100 < (mkLowvib B).vibrs ∨
          (A.vibrs * 100 = (mkLowvib B).vibrs ∧
            shaperMaxAccel A > (mkLowvib B).accel)) ∧
        A.smoothing < MAX_SMOOTHING) := by
    rintro ⟨h1 | ⟨-, h2⟩, -⟩
    · rw [mkLowvib, hv] at h1
      exact lt_irrefl _ h1
    · rw [mkLowvib] at h2
      exact absurd hacc (not_lt.mpr (le_of_lt h2))
  have hBA : lowvibStep (some (mkLowvib B)) A = some (mkLowvib B) := by
    simp only [lowvibStep]
    rw [if_neg hncond]
  constructor
  · simp only [lowvibSelect, List.foldl_cons, List.foldl_nil, hstepA, hAB]
    simp [mkLowvib]
  · simp only [lowvibSelect, List.foldl_cons, List.foldl_nil, hstepB, hBA]
    simp [mkLowvib]

/-- Witness for the amended C2 theorem at a concrete input. -/
theorem lowvib_tiebreak_rounded_accel_witness :
    ((⟨"zv", 50, 2 / 100, 5 / 100, 4900, []⟩ : CalibrationResult).vibrs =
      (⟨"mzv", 52, 2 / 100, 6 / 100, 5100, []⟩ : CalibrationResult).vibrs ∧
     (5 : ℚ) / 100 < MAX_SMOOTHING ∧ (6 : ℚ) / 100 < MAX_SMOOTHING ∧
     shaperMaxAccel ⟨"zv", 50, 2 / 100, 5 / 100, 4900, []⟩ <
       shaperMaxAccel ⟨"mzv", 52, 2 / 100, 6 / 100, 5100, []⟩) ∧
    (lowvibSelect [⟨"zv", 50, 2 / 100, 5 / 100, 4900, []⟩,
                   ⟨"mzv", 52, 2 / 100, 6 / 100, 5100, []⟩]).map LowvibInfo.name =
      some "mzv" ∧
    (lowvibSelect [⟨"mzv", 52, 2 / 100, 6 / 100, 5100, []⟩,
                   ⟨"zv", 50, 2 / 100, 5 / 100, 4900, []⟩]).map LowvibInfo.name =
      some "mzv" := by
  have h1 : (⟨"zv", 50, 2 / 100, 5 / 100, 4900, []⟩ : CalibrationResult).vibrs =
      (⟨"mzv", 52, 2 / 100, 6 / 100, 5100, []⟩ : CalibrationResult).vibrs := rfl
  have h2 : (⟨"zv", 50, 2 / 100, 5 / 100, 4900, []⟩ :
      CalibrationResult).smoothing < MAX_SMOOTHING := by
    norm_num [MAX_SMOOTHING]
  have h3 : (⟨"mzv", 52, 2 / 100, 6 / 100, 5100, []⟩ :
      CalibrationResult).smoothing < MAX_SMOOTHING := by
    norm_num [MAX_SMOOTHING]
  have h4 : shaperMaxAccel ⟨"zv", 50, 2 / 100, 5 / 100, 4900, []⟩ <
      shaperMaxAccel ⟨"mzv", 52, 2 / 100, 6 / 100, 5100, []⟩ := by
    norm_num [shaperMaxAccel, pyRound]
  refine ⟨⟨h1, by norm_num [MAX_SMOOTHING], h3, h4⟩, ?_⟩
  exact lowvib_tiebreak_rounded_accel _ _ h1 h2 h3 h4

/-- C3: if the selected low-vibration candidate vibration percentage is
not less-than-or-equal to the performance one, or it is the same
candidate (same name) as the performance one, then `plot_freq_response`
emits the single performance-only recommendation. -/
theorem lowvib_collapse_to_performance (shapers : List CalibrationResult)
    (performance_shaper : String) (l : LowvibInfo) (pf pv : ℚ) (pvl : List ℚ)
    (hperf : perfSelect shapers performance_shaper = some (pf, pv, pvl))
    (hlow : lowvibSelect shapers = some l)
    (hcol : ¬ (l.vibrs ≤ pv) ∨ l.name = performance_shaper) :
    plot_freq_response shapers performance_shaper =
      Except.ok (Recommendation.single performance_shaper pf) := by
  have hC : ¬ (l.name ≠ performance_shaper ∧ l.vibrs ≤ pv) := by
    rintro ⟨hne, hle⟩
    rcases hcol with h | h
    · exact h hle
    · exact hne h
  simp only [plot_freq_response, hperf, hlow]
  rw [if_neg hC]

/-- Witness for the C3 theorem at a concrete input: the single candidate is
both the performance and the low-vibration pick, so the result collapses. -/
theorem lowvib_collapse_to_performance_witness :
    (perfSelect [⟨"mzv", 40, 2 / 100, 5 / 100, 4000, []⟩] "mzv" =
        some (40, 2, []) ∧
      lowvibSelect [⟨"mzv", 40, 2 / 100, 5 / 100, 4000, []⟩] =
        some ⟨4000, "mzv", 40, 2, []⟩ ∧
      (¬ ((2 : ℚ) ≤ 2) ∨ "mzv" = "mzv")) ∧
    plot_freq_response [⟨"mzv", 40, 2 / 100, 5 / 100, 4000, []⟩] "mzv" =
      Except.ok (Recommendation.single "mzv" 40) := by
  have hperf : perfSelect [⟨"mzv", 40, 2 / 100, 5 / 100, 4000, []⟩] "mzv" =
      some (40, 2, []) := by
    norm_num [perfSelect]
  have hlow : lowvibSelect [⟨"mzv", 40, 2 / 100, 5 / 100, 4000, []⟩] =
      some ⟨4000, "mzv", 40, 2, []⟩ := by
    norm_num [lowvibSelect, lowvibStep, mkLowvib, shaperMaxAccel, pyRound,
      MAX_SMOOTHING]
  have hcol : ¬ (((⟨4000, "mzv", 40, 2, []⟩ : LowvibInfo).vibrs) ≤ (2 : ℚ)) ∨
      (⟨4000, "mzv", 40, 2, []⟩ : LowvibInfo).name = "mzv" := Or.inr rfl
  exact ⟨⟨hperf, hlow, Or.inr rfl⟩,
    lowvib_collapse_to_performance _ _ _ _ _ _ hperf hlow hcol⟩

/-- C4: on the concrete scenario catalog
`A = (vibr 0.02, smoothing 0.05, accel 8000)` and
`B = (vibr 0.01, smoothing 0.15, accel 6000)` with performance candidate
`B`, and with the smoothing bound in force equal to the scenario value 0.10
(the module constant), the result collapses to the performance-only
recommendation. -/
theorem scenario_two_collapses_to_performance_only :
    MAX_SMOOTHING = 10 / 100 ∧
    plot_freq_response
        [⟨"a", 48, 2 / 100, 5 / 100, 8000, []⟩,
         ⟨"b", 52, 1 / 100, 15 / 100, 6000, []⟩] "b" =
      Except.ok (Recommendation.single "b" 52) := by
  constructor
  · norm_num [MAX_SMOOTHING]
  · norm_num [plot_freq_response, perfSelect, lowvibSelect, lowvibStep,
      mkLowvib, shaperMaxAccel, pyRound, MAX_SMOOTHING]

/-- C5: when the shaper search returns no best shaper, `calibrate_shaper`
raises `ValueError(Failed to find a shaper)`: the whole call is an error
and no name, candidate list or mechanical parameter is returned. -/
theorem calibrate_shaper_fails_without_shaper
    (search : Option CalibrationResult × List CalibrationResult) (fr zeta : ℚ)
    (h : search.1 = none) :
    calibrate_shaper search fr zeta = Except.error "Failed to find a shaper" := by
  simp only [calibrate_shaper, h]

/-- Witness for the C5 theorem at a concrete input. -/
theorem calibrate_shaper_fails_without_shaper_witness :
    ((none, ([] : List CalibrationResult)).1 =
        (none : Option CalibrationResult)) ∧
    calibrate_shaper (none, []) 0 0 = Except.error "Failed to find a shaper" :=
  ⟨rfl, calibrate_shaper_fails_without_shaper (none, []) 0 0 rfl⟩

/-- C7: the shaper selection of `plot_freq_response` is deterministic —
identical candidate lists and identical performance candidates always
produce the identical recommendation outcome. -/
theorem plot_freq_response_deterministic
    (shapers₁ shapers₂ : List CalibrationResult)
    (perf₁ perf₂ : String) (hs : shapers₁ = shapers₂) (hp : perf₁ = perf₂) :
    plot_freq_response shapers₁ perf₁ = plot_freq_response shapers₂ perf₂ := by
  rw [hs, hp]

/-- Witness for the C7 theorem at a concrete input. -/
theorem plot_freq_response_deterministic_witness :
    ([(⟨"zv", 50, 2 / 100, 5 / 100, 5000, []⟩ : CalibrationResult)] =
        [⟨"zv", 50, 2 / 100, 5 / 100, 5000, []⟩] ∧ "zv" = "zv") ∧
    plot_freq_response [⟨"zv", 50, 2 / 100, 5 / 100, 5000, []⟩] "zv" =
      plot_freq_response [⟨"zv", 50, 2 / 100, 5 / 100, 5000, []⟩] "zv" :=
  ⟨⟨rfl, rfl⟩, plot_freq_response_deterministic _ _ _ _ rfl rfl⟩

/-- C9: if the name of no candidate equals the designated performance shaper (in
particular when the candidate list is empty), `plot_freq_response` raises
`ValueError(Failed to find a performance shaper)` instead of emitting a
recommendation. -/
theorem plot_freq_response_fails_without_performance
    (shapers : List CalibrationResult) (performance_shaper : String)
    (h : ∀ s ∈ shapers, s.name ≠ performance_shaper) :
    plot_freq_response shapers performance_shaper =
      Except.error "Failed to find a performance shaper" := by
  simp only [plot_freq_response, perfSelect_eq_none shapers performance_shaper h]

/-- Witness for the C9 theorem on the empty candidate list. -/
theorem plot_freq_response_fails_without_performance_witness :
    (∀ s ∈ ([] : List CalibrationResult), s.name ≠ "zv") ∧
    plot_freq_response [] "zv" =
      Except.error "Failed to find a performance shaper" := by
  have h : ∀ s ∈ ([] : List CalibrationResult), s.name ≠ "zv" := by
    intro s hs
    exact absurd hs (List.not_mem_nil s)
  exact ⟨h, plot_freq_response_fails_without_performance [] "zv" h⟩

/-- C8: when the untrimmed per-axis and combined PSD vectors have the same
length as the frequency grid, the trimming at resonances.py lines 294-300
keeps them aligned — every trimmed PSD vector has the length of the trimmed
frequency vector — and every retained frequency is at most `max_freq`. -/
theorem trim_keeps_vectors_aligned (cd : CalibrationData) (max_freq : ℚ)
    (hs : cd.freq_bins.length = cd.psd_sum.length)
    (hx : cd.freq_bins.length = cd.psd_x.length)
    (hy : cd.freq_bins.length = cd.psd_y.length)
    (hz : cd.freq_bins.length = cd.psd_z.length) :
    ((trimCalibrationData cd max_freq).psd_sum.length =
        (trimCalibrationData cd max_freq).freqs.length ∧
      (trimCalibrationData cd max_freq).psd_x.length =
        (trimCalibrationData cd max_freq).freqs.length ∧
      (trimCalibrationData cd max_freq).psd_y.length =
        (trimCalibrationData cd max_freq).freqs.length ∧
      (trimCalibrationData cd max_freq).psd_z.length =
        (trimCalibrationData cd max_freq).freqs.length) ∧
    ∀ f ∈ (trimCalibrationData cd max_freq).freqs, f ≤ max_freq := by
  refine ⟨⟨?_, ?_, ?_, ?_⟩, ?_⟩
  · exact maskLe_length max_freq cd.freq_bins cd.psd_sum hs
  · exact maskLe_length max_freq cd.freq_bins cd.psd_x hx
  · exact maskLe_length max_freq cd.freq_bins cd.psd_y hy
  · exact maskLe_length max_freq cd.freq_bins cd.psd_z hz
  · exact mem_filter_le max_freq cd.freq_bins

/-- Witness for the C8 theorem at a concrete input. -/
theorem trim_keeps_vectors_aligned_witness :
    ((CalibrationData.mk [10, 300] [1, 2] [3, 4] [5, 6] [7, 8]).freq_bins.length =
        (CalibrationData.mk [10, 300] [1, 2] [3, 4] [5, 6] [7, 8]).psd_sum.length) ∧
    (((trimCalibrationData
          (CalibrationData.mk [10, 300] [1, 2] [3, 4] [5, 6] [7, 8]) 200).psd_sum.length =
        (trimCalibrationData
          (CalibrationData.mk [10, 300] [1, 2] [3, 4] [5, 6] [7, 8]) 200).freqs.length ∧
      (trimCalibrationData
          (CalibrationData.mk [10, 300] [1, 2] [3, 4] [5, 6] [7, 8]) 200).psd_x.length =
        (trimCalibrationData
          (CalibrationData.mk [10, 300] [1, 2] [3, 4] [5, 6] [7, 8]) 200).freqs.length ∧
      (trimCalibrationData
          (CalibrationData.mk [10, 300] [1, 2] [3, 4] [5, 6] [7, 8]) 200).psd_y.length =
        (trimCalibrationData
          (CalibrationData.mk [10, 300] [1, 2] [3, 4] [5, 6] [7, 8]) 200).freqs.length ∧
      (trimCalibrationData
          (CalibrationData.mk [10, 300] [1, 2] [3, 4] [5, 6] [7, 8]) 200).psd_z.length =
        (trimCalibrationData
          (CalibrationData.mk [10, 300] [1, 2] [3, 4] [5, 6] [7, 8]) 200).freqs.length) ∧
    ∀ f ∈ (trimCalibrationData
        (CalibrationData.mk [10, 300] [1, 2] [3, 4] [5, 6] [7, 8]) 200).freqs,
      f ≤ (200 : ℚ)) :=
  ⟨rfl, trim_keeps_vectors_aligned
    (CalibrationData.mk [10, 300] [1, 2] [3, 4] [5, 6] [7, 8]) 200
    rfl rfl rfl rfl⟩

/-- C6: the pipeline detection threshold is `0.05` times the maximum of
the trimmed combined PSD and the effect threshold is `0.12` times that
maximum; the detector is invoked with the detection threshold only, every
detected peak strictly exceeds the detection threshold, and the
above-effect count classifies each detected peak by the strict comparison
of its PSD value against the effect threshold. -/
theorem peaks_thresholds_and_classification (cd : CalibrationData)
    (max_freq : ℚ) (sep : ℕ) :
    PEAKS_DETECTION_THRESHOLD = 5 / 100 ∧ PEAKS_EFFECT_THRESHOLD = 12 / 100 ∧
    (graph_resonances_test_results cd max_freq sep).peaks_threshold =
      (PEAKS_DETECTION_THRESHOLD *
          listMax (graph_resonances_test_results cd max_freq sep).trimmed.psd_sum,
        PEAKS_EFFECT_THRESHOLD *
          listMax (graph_resonances_test_results cd max_freq sep).trimmed.psd_sum) ∧
    (graph_resonances_test_results cd max_freq sep).peaks =
      (detect_peaks
          (graph_resonances_test_results cd max_freq sep).trimmed.psd_sum
          (graph_resonances_test_results cd max_freq sep).trimmed.freqs
          (graph_resonances_test_results cd max_freq sep).peaks_threshold.1
          sep).2.1 ∧
    (∀ p ∈ (graph_resonances_test_results cd max_freq sep).peaks,
        (graph_resonances_test_results cd max_freq sep).peaks_threshold.1 <
          (graph_resonances_test_results cd
            max_freq sep).trimmed.psd_sum.getD p 0) ∧
    (graph_resonances_test_results cd
        max_freq sep).num_peaks_above_effect_threshold =
      numPeaksAboveEffect
        (graph_resonances_test_results cd max_freq sep).trimmed.psd_sum
        (graph_resonances_test_results cd max_freq sep).peaks
        (graph_resonances_test_results cd max_freq sep).peaks_threshold.2 ∧
    (∀ (peaks : List ℕ) (p : ℕ),
        numPeaksAboveEffect
            (graph_resonances_test_results cd max_freq sep).trimmed.psd_sum
            (p :: peaks)
            (graph_resonances_test_results cd max_freq sep).peaks_threshold.2 =
          numPeaksAboveEffect
              (graph_resonances_test_results cd max_freq sep).trimmed.psd_sum
              peaks
              (graph_resonances_test_results cd max_freq sep).peaks_threshold.2 +
            (if (graph_resonances_test_results cd
                    max_freq sep).peaks_threshold.2 <
                (graph_resonances_test_results cd
                  max_freq sep).trimmed.psd_sum.getD p 0
              then 1 else 0)) := by
  refine ⟨rfl, rfl, rfl, rfl, ?_, rfl, ?_⟩
  · intro p hp
    exact detect_peaks_mem_gt
      (graph_resonances_test_results cd max_freq sep).trimmed.psd_sum
      (graph_resonances_test_results cd max_freq sep).trimmed.freqs
      (graph_resonances_test_results cd max_freq sep).peaks_threshold.1 sep p hp
  · intro peaks p
    by_cases h : (graph_resonances_test_results cd max_freq sep).peaks_threshold.2 <
        (graph_resonances_test_results cd max_freq sep).trimmed.psd_sum.getD p 0
    · simp only [numPeaksAboveEffect, List.filter_cons, decide_eq_true_eq,
        if_pos h, List.length_cons]
    · simp only [numPeaksAboveEffect, List.filter_cons, decide_eq_true_eq,
        if_neg h, Nat.add_zero]

/-- C10: a detected peak whose PSD value equals the effect threshold
exactly is classified below it — the comparison is strict — so its label is
not highlighted and it does not contribute to the above-effect count. -/
theorem peak_at_effect_threshold_not_significant (psd : List ℚ) (p : ℕ)
    (h : psd.getD p 0 = (peaksThresholdOf psd).2) :
    peakLabelStyle psd p (peaksThresholdOf psd).2 = ("black", "normal") ∧
    ∀ peaks : List ℕ,
      numPeaksAboveEffect psd (p :: peaks) (peaksThresholdOf psd).2 =
        numPeaksAboveEffect psd peaks (peaksThresholdOf psd).2 := by
  have hlt : ¬ ((peaksThresholdOf psd).2 < psd.getD p 0) := by
    rw [h]
    exact lt_irrefl _
  constructor
  · simp only [peakLabelStyle, if_neg hlt]
  · intro peaks
    simp only [numPeaksAboveEffect, List.filter_cons, decide_eq_true_eq,
      if_neg hlt]

/-- Witness for the C10 theorem at a concrete input: the effect threshold of
`[100, 12]` is `0.12 * 100 = 12` and position 1 holds exactly `12`. -/
theorem peak_at_effect_threshold_not_significant_witness :
    ([(100 : ℚ), 12].getD 1 0 = (peaksThresholdOf [100, 12]).2) ∧
    peakLabelStyle [100, 12] 1 (peaksThresholdOf [100, 12]).2 =
      ("black", "normal") ∧
    ∀ peaks : List ℕ,
      numPeaksAboveEffect [100, 12] (1 :: peaks) (peaksThresholdOf [100, 12]).2 =
        numPeaksAboveEffect [100, 12] peaks (peaksThresholdOf [100, 12]).2 := by
  have h : ([(100 : ℚ), 12].getD 1 0 = (peaksThresholdOf [100, 12]).2) := by
    norm_num [peaksThresholdOf, listMax, PEAKS_EFFECT_THRESHOLD]
  exact ⟨h, peak_at_effect_threshold_not_significant [100, 12] 1 h⟩

end Shaketune
